import Mathlib

set_option autoImplicit false

/-!
Shallow embedding of the ioBroker → InfluxDB 3 connector
(`src/influxdb3Client.js`, the "async/batch + smart-hourly + fixes" connector),
together with the `isFlushing`-guarded flush routine of
`src/influxdb3Connector.js`.

Modelling conventions:
* JavaScript finite numbers are rationals (`ℚ`); timestamps are integers
  (milliseconds, respectively nanoseconds after `msToNs`).
* JS `Map`s are association lists with `mapGet` / `mapSet`; only the
  `get`-observable behaviour matters.
* The InfluxDB client's `write` call is an external collaborator and is
  modelled by a boolean success oracle passed to each operation.
* `JSON.parse` and `Date.parse` are external library calls; their outcomes
  are modelled as data (parse succeeded with such-and-such result, or failed).
-/

/-- Escape for the Influx line protocol, `src/influxdb3Client.js` line 300:
`(s) => s.replace(/[ ,=]/g, "\\$&")` — every space, comma and equals sign
is prefixed with a backslash. -/
def escapeLP (s : String) : String :=
  String.mk (s.data.foldr
    (fun c acc => if c = ' ' ∨ c = ',' ∨ c = '=' then '\\' :: c :: acc else c :: acc) [])

/-- Maximum number of queued records per flush batch (`MAX_BATCH = 500`). -/
def MAX_BATCH : Nat := 500

/-- Base flush interval in milliseconds (`BASE_FLUSH_MS = 60_000`). -/
def BASE_FLUSH_MS : Nat := 60000

/-- Backoff ceiling in milliseconds (`MAX_FLUSH_MS = 600_000`, 10 minutes). -/
def MAX_FLUSH_MS : Nat := 600000

/-- Heartbeat-guard threshold (`ONE_HOUR = 60 * 60 * 1000` ms). -/
def ONE_HOUR : Int := 3600000

/-- Millisecond → nanosecond conversion, `src/influxdb3Client.js` line 260:
`(ms) => (BigInt(ms) * 1_000_000n).toString()`.  Modelled on integers; the
case where `BigInt` throws (its argument is `NaN`) is handled at the call
site that can produce it (`tsNsOfLc`). -/
def msToNs (ms : Int) : Int := ms * 1000000

/-- Lookup in a JS `Map`, modelled on an association list (`Map.get`). -/
def mapGet {α : Type} (m : List (String × α)) (k : String) : Option α :=
  (m.find? (fun p => p.1 == k)).map Prod.snd

/-- Update of a JS `Map` (`Map.set`): the new binding shadows any old one.
Insertion order is irrelevant here because the program only observes maps
through `get`. -/
def mapSet {α : Type} (m : List (String × α)) (k : String) (v : α) :
    List (String × α) :=
  (k, v) :: m.filter (fun p => !(p.1 == k))

@[simp] theorem mapGet_mapSet_self {α : Type} (m : List (String × α)) (k : String) (v : α) :
    mapGet (mapSet m k v) k = some v := by
  simp [mapGet, mapSet, List.find?]

/-- A configured datapoint from `config.json` (validated in the startup IIFE,
`src/influxdb3Client.js` lines 238–249): `id` and `measurement` are mandatory
strings, the tag fields are optional, `minDelta` is an optional number ≥ 0. -/
structure Datapoint where
  id : String
  measurement : String
  source : Option String
  sensor_id : Option String
  location : Option String
  processing : Option String
  minDelta : Option ℚ
deriving DecidableEq

/-- A queued record, exactly the object pushed by `enqueueValue`
(`src/influxdb3Client.js` lines 344–357): the datapoint's identity and tag
fields, the numeric value, the trigger label and the nanosecond timestamp. -/
structure QRec where
  id : String
  measurement : String
  source : Option String
  sensor_id : Option String
  location : Option String
  processing : Option String
  value : ℚ
  trigger : String
  ts : Int
deriving DecidableEq

/-- Tag string builder (`buildTagString`, lines 281–291): the present tags
among `source`, `sensor_id`, `location`, `processing` and a non-empty
`trigger`, each rendered `name=escapedValue`, joined with commas. -/
def buildTagString (source sensor_id location processing : Option String)
    (trigger : String) : String :=
  let tagPairs : List (Option String) :=
    [ source.map (fun s => "source=" ++ escapeLP s),
      sensor_id.map (fun s => "sensor_id=" ++ escapeLP s),
      location.map (fun s => "location=" ++ escapeLP s),
      processing.map (fun s => "processing=" ++ escapeLP s),
      if trigger = "" then none else some ("trigger=" ++ escapeLP trigger) ]
  String.intercalate "," (tagPairs.filterMap id)

/-- Line-protocol rendering of one queued record, as in `flushQueue`
(lines 369–373): `meas,tags value=<v> <ts>`. -/
def lineOfQRec (q : QRec) : String :=
  escapeLP q.measurement ++ "," ++
    buildTagString q.source q.sensor_id q.location q.processing q.trigger ++
    " value=" ++ toString q.value ++ " " ++ toString q.ts

/-- A defined JavaScript value as seen by the connector: either one that
`Number(val)` coerces to a finite number (carried as a rational), or one
that does not (`NaN`, `Infinity`, non-numeric strings, objects, …).
An `undefined` value is represented by `Option JSVal = none` at use sites. -/
inductive JSVal
  | num (q : ℚ)
  | nonNum
deriving DecidableEq

/-- Coercion `Number(val)` restricted to its finiteness-relevant outcome:
`some q` when `Number.isFinite(Number(val))`, `none` otherwise (in
particular for `undefined`). -/
def jsNum : Option JSVal → Option ℚ
  | some (.num q) => some q
  | some .nonNum => none
  | none => none

/-- The connector's mutable globals that the queue/flush/write/guard logic
touches: the failure queue (`queue`), the current backoff (`flushDelay`),
and the four runtime maps `lastValues`, `lastWritten`, `writtenValues`,
`lastGuardRun` (lines 261–297).  `lastValues` stores raw state values, which
may themselves be `undefined` (hence `Option JSVal` below, wrapped once more
because a key may be absent from the map). -/
structure GState where
  queue : List QRec
  flushDelay : Nat
  lastValues : List (String × Option JSVal)
  lastWritten : List (String × Int)
  writtenValues : List (String × ℚ)
  lastGuardRun : List (String × Int)
deriving DecidableEq

/-- One invocation of `flushQueue` (`src/influxdb3Client.js` lines 362–391),
with the outcome of the single `client.write` call given by `submitOk` and
`Date.now()` given by `now`.  Empty queue: reset the backoff and return.
Otherwise splice one batch of up to `MAX_BATCH` records off the front; on
success record `lastWritten`/`writtenValues` for each batch record and reset
the backoff; on failure `unshift` the batch back onto the front and double
the backoff up to `MAX_FLUSH_MS`.  (`saveQueue` then persists `queue` and
`scheduleNextFlush` re-arms the timer with `flushDelay`.) -/
def flushQueue (submitOk : Bool) (now : Int) (s : GState) : GState :=
  if s.queue = [] then { s with flushDelay := BASE_FLUSH_MS }
  else
    let batch := s.queue.take MAX_BATCH
    let rest := s.queue.drop MAX_BATCH
    if submitOk then
      { s with
        queue := rest
        flushDelay := BASE_FLUSH_MS
        lastWritten := batch.foldl (fun m q => mapSet m q.id now) s.lastWritten
        writtenValues := batch.foldl (fun m q => mapSet m q.id q.value) s.writtenValues }
    else
      { s with
        queue := batch ++ rest
        flushDelay := min (s.flushDelay * 2) MAX_FLUSH_MS }

/-- Outcome of one `writeToInflux` call (`src/influxdb3Client.js`
lines 400–419): the value was not finite and was discarded with a warning;
or the single line was submitted successfully; or submission failed and the
record was enqueued. -/
inductive WriteOutcome
  | invalid
  | submitted (line : String)
  | enqueued (r : QRec)
deriving DecidableEq

/-- One call of `writeToInflux(dp, rawVal, trigger, ts)` (lines 400–419),
with the `client.write` outcome given by `submitOk` and `Date.now()` by
`now`.  `Number(rawVal)` not finite: warn and return.  Otherwise build the
line; on successful submission update `lastWritten` and `writtenValues`;
on failure `enqueueValue` the record (appended at the back of the queue,
then persisted). -/
def writeToInflux (dp : Datapoint) (rawVal : Option JSVal) (trigger : String)
    (ts : Int) (submitOk : Bool) (now : Int) (s : GState) :
    WriteOutcome × GState :=
  match jsNum rawVal with
  | none => (.invalid, s)
  | some num =>
    let line := escapeLP dp.measurement ++ "," ++
      buildTagString dp.source dp.sensor_id dp.location dp.processing trigger ++
      " value=" ++ toString num ++ " " ++ toString ts
    if submitOk then
      (.submitted line,
        { s with
          lastWritten := mapSet s.lastWritten dp.id now
          writtenValues := mapSet s.writtenValues dp.id num })
    else
      let r : QRec :=
        ⟨dp.id, dp.measurement, dp.source, dp.sensor_id, dp.location,
          dp.processing, num, trigger, ts⟩
      (.enqueued r, { s with queue := s.queue ++ [r] })

/-- The source-reported update time `obj?.state?.lc` as the change listener
sees it: a finite number (integer milliseconds), a non-finite number, a
string together with its `Date.parse` outcome (`none` = `NaN`), or absent
(`undefined`/other). `Date.parse` is an external library call, so its result
is carried as data. -/
inductive JSTime
  | num (ms : Int)
  | nonFiniteNum
  | str (parsed : Option Int)
  | absent
deriving DecidableEq

/-- Timestamp derivation of the change listener (lines 440–444):
`typeof lc === "number" && Number.isFinite(lc) ? msToNs(lc)
 : typeof lc === "string" ? msToNs(Date.parse(lc)) : msToNs(Date.now())`.
For a string that `Date.parse` cannot parse, `Date.parse` yields `NaN` and
`BigInt(NaN)` inside `msToNs` throws a `RangeError`, so that case is an
error, not a fallback. -/
def tsNsOfLc (now : Int) : JSTime → Except Unit Int
  | .num ms => .ok (msToNs ms)
  | .nonFiniteNum => .ok (msToNs now)
  | .str (some ms) => .ok (msToNs ms)
  | .str none => .error ()
  | .absent => .ok (msToNs now)

/-- The `minDelta` suppression test of the change listener (lines 448–457):
it fires exactly when `dp.minDelta` is configured, `Number(val)` is finite,
a previously successfully-written value exists, and
`Math.abs(currentNum - last) < dp.minDelta`. -/
def minDeltaSkip (minDelta current last : Option ℚ) : Bool :=
  match minDelta, current, last with
  | some d, some c, some l => decide (|c - l| < d)
  | _, _, _ => false

/-- Result of one change-listener invocation: the timestamp derivation threw
(the rejection is caught only by the process-level fatal handler); the
update was suppressed by the `minDelta` filter; or `writeToInflux` ran with
the given outcome. -/
inductive ListenerResult
  | errorThrown
  | suppressed
  | acted (o : WriteOutcome)
deriving DecidableEq

/-- One invocation of the per-datapoint change listener
(`src/influxdb3Client.js` lines 437–459): derive `tsNs` (which can throw on
an unparseable `lc` string), record `lastValues`, then — if the datapoint
declares `minDelta`, the new value is finite, and a previously written value
exists with `|current - last| < minDelta` — suppress the update (`return`);
otherwise call `writeToInflux` with trigger `"change"`. -/
def changeListener (dp : Datapoint) (val : Option JSVal) (lc : JSTime)
    (submitOk : Bool) (now : Int) (s : GState) : ListenerResult × GState :=
  match tsNsOfLc now lc with
  | .error _ => (.errorThrown, s)
  | .ok tsNs =>
    let s1 := { s with lastValues := mapSet s.lastValues dp.id val }
    if minDeltaSkip dp.minDelta (jsNum val) (mapGet s1.writtenValues dp.id) then
      (.suppressed, s1)
    else
      let p := writeToInflux dp val "change" tsNs submitOk now s1
      (.acted p.1, p.2)

/-- The startup-initial write for one datapoint (lines 462–475): read the
current state (`getStateAsync`, an external lookup whose outcome is
`stVal`); if the value is defined, record it in `lastValues` and call
`writeToInflux` with trigger `"startup-initial"` and the default timestamp
`msToNs(Date.now())` — with no `minDelta` check on this path. -/
def startupInitial (dp : Datapoint) (stVal : Option JSVal) (submitOk : Bool)
    (now : Int) (s : GState) : Option WriteOutcome × GState :=
  match stVal with
  | none => (none, s)
  | some v =>
    let s1 := { s with lastValues := mapSet s.lastValues dp.id (some v) }
    let p := writeToInflux dp (some v) "startup-initial" (msToNs now)
      submitOk now s1
    (some p.1, p.2)

/-- What the hourly guard did for one datapoint on one poll tick. -/
inductive GuardAction
  | skipped
  | wrote (o : WriteOutcome)
deriving DecidableEq

/-- One datapoint's step of the smart hourly guard (`src/influxdb3Client.js`
lines 481–509, body of the 60-second `setInterval` for a single `dp`):
`lastGuardExecution = lastGuardRun.get(dp.id) || 0`; if
`now - lastGuardExecution < ONE_HOUR`, skip; otherwise set
`lastGuardRun[dp.id] = now` first, then obtain a value — the cached
`lastValues` entry, or else a `getStateAsync` lookup (whose outcome is
`sourceVal`; a lookup error skips the write but the guard time stays
recorded) — and, if a value is defined, call `writeToInflux` with trigger
`"hourly-guard"` and default timestamp `msToNs(now)`. -/
def guardStep (dp : Datapoint) (now : Int)
    (sourceVal : Except Unit (Option JSVal)) (submitOk : Bool) (s : GState) :
    GuardAction × GState :=
  let lastGuardExecution := (mapGet s.lastGuardRun dp.id).getD 0
  if now - lastGuardExecution < ONE_HOUR then (.skipped, s)
  else
    let s1 := { s with lastGuardRun := mapSet s.lastGuardRun dp.id now }
    match (mapGet s1.lastValues dp.id).getD none with
    | some v =>
      let p := writeToInflux dp (some v) "hourly-guard" (msToNs now)
        submitOk now s1
      (.wrote p.1, p.2)
    | none =>
      match sourceVal with
      | .error _ => (.skipped, s1)
      | .ok sv =>
        let s2 := { s1 with lastValues := mapSet s1.lastValues dp.id sv }
        match sv with
        | some v =>
          let p := writeToInflux dp (some v) "hourly-guard" (msToNs now)
            submitOk now s2
          (.wrote p.1, p.2)
        | none => (.skipped, s2)

/-- The `SIGINT`/`SIGTERM` handler (`src/influxdb3Client.js` lines 517–526):
`await flushQueue()` once, then `process.exit(0)` — so the process state at
exit is the result of a single flush invocation, and the exit code is 0.
`saveQueue` inside that invocation persists the resulting queue, so the
durable store at exit holds exactly the returned queue. -/
def signalShutdown (submitOk : Bool) (now : Int) (s : GState) : GState × Nat :=
  (flushQueue submitOk now s, 0)

/-- The fatal handlers (`unhandledRejection` / `uncaughtException`,
lines 529–537): `await flushQueue()` once, then `process.exit(1)`. -/
def fatalShutdown (submitOk : Bool) (now : Int) (s : GState) : GState × Nat :=
  (flushQueue submitOk now s, 1)

/-- State of the durable queue file as `initQueueFile` encounters it
(lines 314–334).  `JSON.parse` is an external library call, so a file with
content carries its parse outcome as data: the parse threw; it produced an
array of records; or it produced a non-array value. -/
inductive QueueFileState
  | missing
  | emptyRaw
  | ioError
  | parseError
  | parsedArray (q : List QRec)
  | parsedNonArray
deriving DecidableEq

/-- The in-memory queue produced by `initQueueFile` (lines 314–334): a
missing file is created with content `"[]"` and yields `[]`; an empty file
yields `[]` (`raw ? JSON.parse(raw) : []`); a `JSON.parse` error is caught,
logged and yields `[]`; a parsed non-array yields `[]`
(`if (!Array.isArray(queue)) queue = []`); any other I/O error is caught by
the outer handler and yields `[]`.  Every branch returns a queue — no path
aborts the process and no partial recovery of unparseable content is
attempted. -/
def initQueueFile : QueueFileState → List QRec
  | .missing => []
  | .emptyRaw => []
  | .ioError => []
  | .parseError => []
  | .parsedArray q => q
  | .parsedNonArray => []

/-- The synchronous prefix of `flushQueue` (`src/influxdb3Client.js`
lines 362–373) up to its only suspension point, the `await client.write`
call: on an empty queue reset the backoff and return no batch; otherwise
splice one batch of up to `MAX_BATCH` records off the front and suspend
holding it.  There is no in-progress flag in this file, so nothing in this
prefix consults or sets a guard. -/
def flushBegin (s : GState) : Option (List QRec) × GState :=
  if s.queue = [] then (none, { s with flushDelay := BASE_FLUSH_MS })
  else
    (some (s.queue.take MAX_BATCH), { s with queue := s.queue.drop MAX_BATCH })

/-- The continuation of `flushQueue` after the `await client.write`
suspension (lines 375–391), applied to the batch the invocation holds. -/
def flushResume (batch : List QRec) (submitOk : Bool) (now : Int)
    (s : GState) : GState :=
  if submitOk then
    { s with
      flushDelay := BASE_FLUSH_MS
      lastWritten := batch.foldl (fun m q => mapSet m q.id now) s.lastWritten
      writtenValues := batch.foldl (fun m q => mapSet m q.id q.value) s.writtenValues }
  else
    { s with
      queue := batch ++ s.queue
      flushDelay := min (s.flushDelay * 2) MAX_FLUSH_MS }

/-- Sanity check: `flushQueue` is `flushBegin` followed by `flushResume`
when run without interleaving. -/
theorem flushQueue_eq_begin_resume (submitOk : Bool) (now : Int) (s : GState) :
    flushQueue submitOk now s =
      (match flushBegin s with
       | (none, s1) => s1
       | (some batch, s1) => flushResume batch submitOk now s1) := by
  by_cases h : s.queue = [] <;> simp [flushQueue, flushBegin, flushResume, h]

/-- The globals of the older connector `src/influxdb3Connector.js` that its
flush routine touches: the queue and the `isFlushing` in-progress flag
(lines 76, 112). -/
structure ConnState where
  queue : List QRec
  isFlushing : Bool
deriving DecidableEq

/-- The synchronous prefix of the older connector's `flushQueue`
(`src/influxdb3Connector.js` lines 118–134) up to its first suspension at
`await client.write`: `if (isFlushing || queue.length === 0) return;` — a
second invocation while one is in progress returns immediately and takes no
batch; otherwise set `isFlushing = true` and splice the first batch of up to
`MAX_BATCH` records. -/
def connFlushBegin (s : ConnState) : Option (List QRec) × ConnState :=
  if s.isFlushing || decide (s.queue = []) then (none, s)
  else
    (some (s.queue.take MAX_BATCH),
      { queue := s.queue.drop MAX_BATCH, isFlushing := true })

/-- A sample queued record used in concrete instantiations. -/
def r0 : QRec := ⟨"dp1", "m1", none, none, none, none, 1, "change", 0⟩

/-- A queue of 501 identical records — one more than `MAX_BATCH`. -/
def q501 : List QRec := List.replicate 501 r0

/-- A connector state holding 501 queued records. -/
def s501 : GState := ⟨q501, BASE_FLUSH_MS, [], [], [], []⟩

/-- A connector state holding a single queued record. -/
def sOne : GState := ⟨[r0], BASE_FLUSH_MS, [], [], [], []⟩

/-- On a successful submission (or an empty queue) one `flushQueue`
invocation removes exactly the first `MAX_BATCH` records. -/
theorem flushQueue_success_queue (now : Int) (s : GState) :
    (flushQueue true now s).queue = s.queue.drop MAX_BATCH := by
  by_cases h : s.queue = [] <;> simp [flushQueue, h]

/-- On a failed submission one `flushQueue` invocation leaves the queue
unchanged: the spliced batch is unshifted back in place. -/
theorem flushQueue_failure_queue (now : Int) (s : GState) :
    (flushQueue false now s).queue = s.queue := by
  by_cases h : s.queue = [] <;> simp [flushQueue, h]

/-- The 501-record queue still has one record after one batch is dropped. -/
theorem q501_drop_ne_nil : q501.drop MAX_BATCH ≠ [] := by
  intro h
  have hlen : (q501.drop MAX_BATCH).length = 1 := by
    simp only [List.length_drop, q501, List.length_replicate, MAX_BATCH]
  rw [h] at hlen
  simp at hlen

/-- C1: for every queue state, a flush cycle whose batch submission fails
leaves the queue exactly as it was before the cycle — the failed batch is
reinserted at the front in its original relative order, nothing is
duplicated and nothing is lost. -/
theorem claim_C1_failed_flush_restores_queue (now : Int) (s : GState) :
    (flushQueue false now s).queue = s.queue := by
  exact flushQueue_failure_queue now s

/-- C3: a failed flush cycle doubles the retry interval capped at
`MAX_FLUSH_MS`, which is exactly 10 times the 60-second base; a successful
cycle, and a cycle that finds the queue empty, reset the interval to the
base value. -/
theorem claim_C3_backoff_doubling_and_reset (submitOk : Bool) (now : Int) (s : GState) :
    (s.queue ≠ [] →
      (flushQueue false now s).flushDelay = min (s.flushDelay * 2) MAX_FLUSH_MS) ∧
    (flushQueue true now s).flushDelay = BASE_FLUSH_MS ∧
    (s.queue = [] → (flushQueue submitOk now s).flushDelay = BASE_FLUSH_MS) ∧
    MAX_FLUSH_MS = 10 * BASE_FLUSH_MS := by
  refine ⟨fun h => ?_, ?_, fun h => ?_, by decide⟩
  · simp [flushQueue, h]
  · by_cases h : s.queue = [] <;> simp [flushQueue, h]
  · simp [flushQueue, h]

/-- Witness for C3 at a concrete one-record state: a failed cycle moves the
backoff from 60 s to 120 s, a successful one resets it, and an empty queue
resets it. -/
theorem claim_C3_backoff_doubling_and_reset_witness :
    (flushQueue false 0 sOne).flushDelay = min (sOne.flushDelay * 2) MAX_FLUSH_MS ∧
    (flushQueue true 0 sOne).flushDelay = BASE_FLUSH_MS ∧
    (flushQueue true 0 ⟨[], BASE_FLUSH_MS, [], [], [], []⟩).flushDelay = BASE_FLUSH_MS := by
  refine ⟨(claim_C3_backoff_doubling_and_reset false 0 sOne).1 (by decide), ?_, ?_⟩
  · exact (claim_C3_backoff_doubling_and_reset true 0 sOne).2.1
  · exact (claim_C3_backoff_doubling_and_reset true 0 ⟨[], BASE_FLUSH_MS, [], [], [], []⟩).2.2.1 rfl

/-- C4 fails as stated: with 501 queued records, a single flush cycle whose
submission succeeds does NOT leave the queue empty — `flushQueue` takes
exactly one batch per invocation and never loops. -/
theorem claim_C4_counterexample :
    (flushQueue true 0 s501).queue ≠ [] := by
  rw [show (flushQueue true 0 s501).queue = q501.drop MAX_BATCH from
    flushQueue_success_queue 0 s501]
  exact q501_drop_ne_nil

/-- C4 (amended): a single successful flush cycle removes exactly one batch
of at most `MAX_BATCH = 500` records from the front of the queue, so it
leaves the queue empty precisely when the queue held at most 500 records;
longer queues are drained only across successive cycles. -/
theorem claim_C4_single_batch_per_cycle (now : Int) (s : GState) :
    (flushQueue true now s).queue = s.queue.drop MAX_BATCH ∧
    (s.queue.length ≤ MAX_BATCH → (flushQueue true now s).queue = []) := by
  refine ⟨flushQueue_success_queue now s, fun h => ?_⟩
  rw [flushQueue_success_queue now s, List.drop_eq_nil_iff]
  exact h

/-- Witness for amended C4: with one queued record a successful cycle leaves
the queue empty. -/
theorem claim_C4_single_batch_per_cycle_witness :
    (flushQueue true 0 sOne).queue = sOne.queue.drop MAX_BATCH ∧
    (flushQueue true 0 sOne).queue = [] := by
  exact ⟨(claim_C4_single_batch_per_cycle 0 sOne).1,
    (claim_C4_single_batch_per_cycle 0 sOne).2 (by decide)⟩

/-- C5 fails as stated: a termination signal received with 501 records
queued and a reachable Write Client does not leave the durable store empty —
the handler runs `flushQueue` exactly once, which drains at most one batch
of 500, and then exits. -/
theorem claim_C5_counterexample :
    (signalShutdown true 0 s501).1.queue ≠ [] := by
  show (flushQueue true 0 s501).queue ≠ []
  rw [show (flushQueue true 0 s501).queue = q501.drop MAX_BATCH from
    flushQueue_success_queue 0 s501]
  exact q501_drop_ne_nil

/-- C5 (amended): the termination handler performs exactly one flush cycle
and exits with code 0, so with a reachable Write Client the persisted queue
at exit is the original queue minus its first batch — empty precisely when
at most `MAX_BATCH = 500` records were queued; the fatal-fault handlers
perform the same single best-effort cycle and exit with code 1. -/
theorem claim_C5_single_drain_then_exit (submitOk : Bool) (now : Int) (s : GState) :
    (signalShutdown true now s).2 = 0 ∧
    (signalShutdown true now s).1.queue = s.queue.drop MAX_BATCH ∧
    (s.queue.length ≤ MAX_BATCH → (signalShutdown true now s).1.queue = []) ∧
    (fatalShutdown submitOk now s).2 = 1 := by
  refine ⟨rfl, flushQueue_success_queue now s, fun h => ?_, rfl⟩
  show (flushQueue true now s).queue = []
  rw [flushQueue_success_queue now s, List.drop_eq_nil_iff]
  exact h

/-- Witness for amended C5: one queued record, reachable client — drain
leaves the store empty and exits 0; the fatal path exits 1. -/
theorem claim_C5_single_drain_then_exit_witness :
    (signalShutdown true 0 sOne).2 = 0 ∧
    (signalShutdown true 0 sOne).1.queue = [] ∧
    (fatalShutdown true 0 sOne).2 = 1 := by
  exact ⟨(claim_C5_single_drain_then_exit true 0 sOne).1,
    (claim_C5_single_drain_then_exit true 0 sOne).2.2.1 (by decide),
    (claim_C5_single_drain_then_exit true 0 sOne).2.2.2⟩

/-- A `writeToInflux` call never touches the `lastGuardRun` map. -/
theorem writeToInflux_lastGuardRun (dp : Datapoint) (rawVal : Option JSVal)
    (trigger : String) (ts : Int) (submitOk : Bool) (now : Int) (s : GState) :
    (writeToInflux dp rawVal trigger ts submitOk now s).2.lastGuardRun =
      s.lastGuardRun := by
  rcases h : jsNum rawVal with _ | q <;>
    by_cases hok : submitOk <;> simp [writeToInflux, h, hok]

/-- A `writeToInflux` call with a successful submission leaves the queue
untouched and reports the encoded line. -/
theorem writeToInflux_success (dp : Datapoint) (rawVal : Option JSVal)
    (trigger : String) (ts : Int) (now : Int) (s : GState) (q : ℚ)
    (h : jsNum rawVal = some q) :
    (writeToInflux dp rawVal trigger ts true now s).1 =
      .submitted (escapeLP dp.measurement ++ "," ++
        buildTagString dp.source dp.sensor_id dp.location dp.processing trigger ++
        " value=" ++ toString q ++ " " ++ toString ts) ∧
    (writeToInflux dp rawVal trigger ts true now s).2.queue = s.queue := by
  simp [writeToInflux, h]

/-- A datapoint with `minDelta = 0.5` on id `"dp1"`. -/
def dpHalf : Datapoint := ⟨"dp1", "m1", none, none, none, none, some (1/2)⟩

/-- A state whose last successfully written value for `"dp1"` is 10.0. -/
def sW : GState := ⟨[], BASE_FLUSH_MS, [], [], [("dp1", (10 : ℚ))], []⟩

/-- Like `sW`, but with 10.3 cached as the last observed value of `"dp1"`
and no recorded guard run. -/
def sWcached : GState :=
  ⟨[], BASE_FLUSH_MS, [("dp1", some (JSVal.num (103/10)))], [],
    [("dp1", (10 : ℚ))], []⟩


/-- Suppression case of the change listener: configured `minDelta`, finite
new value, existing previously-written value, difference strictly below the
threshold — the listener returns before `writeToInflux`, having only
recorded `lastValues`. -/
theorem changeListener_suppresses (dp : Datapoint) (d : ℚ) (val : Option JSVal)
    (c l : ℚ) (lc : JSTime) (ok : Bool) (now t : Int) (s : GState)
    (hmd : dp.minDelta = some d) (hc : jsNum val = some c)
    (hl : mapGet s.writtenValues dp.id = some l) (hd : |c - l| < d)
    (hts : tsNsOfLc now lc = .ok t) :
    changeListener dp val lc ok now s =
      (.suppressed, { s with lastValues := mapSet s.lastValues dp.id val }) := by
  simp only [changeListener, hts]
  have hw : mapGet
      ({ s with lastValues := mapSet s.lastValues dp.id val } : GState).writtenValues
      dp.id = some l := hl
  simp [minDeltaSkip, hmd, hc, hw, hd]

/-- Pass-through case of the change listener: the threshold test fails, so
the listener calls `writeToInflux` with trigger `"change"`. -/
theorem changeListener_passes (dp : Datapoint) (d : ℚ) (val : Option JSVal)
    (c l : ℚ) (lc : JSTime) (ok : Bool) (now t : Int) (s : GState)
    (hmd : dp.minDelta = some d) (hc : jsNum val = some c)
    (hl : mapGet s.writtenValues dp.id = some l) (hd : ¬(|c - l| < d))
    (hts : tsNsOfLc now lc = .ok t) :
    changeListener dp val lc ok now s =
      (.acted (writeToInflux dp val "change" t ok now
          { s with lastValues := mapSet s.lastValues dp.id val }).1,
        (writeToInflux dp val "change" t ok now
          { s with lastValues := mapSet s.lastValues dp.id val }).2) := by
  simp only [changeListener, hts]
  have hw : mapGet
      ({ s with lastValues := mapSet s.lastValues dp.id val } : GState).writtenValues
      dp.id = some l := hl
  simp [minDeltaSkip, hmd, hc, hw, hd]

/-- C2: if an entity declares `minDelta`, a previously successfully-written
value exists, and the finite new value differs from it by strictly less than
`minDelta`, the change notification is suppressed — nothing is submitted and
nothing is queued.  Concretely, with `minDelta = 0.5` and prior written
value 10.0, a change to 10.3 is suppressed while a change to 10.6 is
submitted; and the startup-initial and hourly-guard paths call
`writeToInflux` with no `minDelta` check, so the same sub-threshold value
10.3 is still written there. -/
theorem claim_C2_minDelta_suppression :
    (∀ (dp : Datapoint) (d : ℚ) (val : Option JSVal) (c l : ℚ) (lc : JSTime)
        (ok : Bool) (now t : Int) (s : GState),
      dp.minDelta = some d → jsNum val = some c →
      mapGet s.writtenValues dp.id = some l → |c - l| < d →
      tsNsOfLc now lc = .ok t →
      (changeListener dp val lc ok now s).1 = .suppressed ∧
      (changeListener dp val lc ok now s).2.queue = s.queue ∧
      (changeListener dp val lc ok now s).2.writtenValues = s.writtenValues) ∧
    (changeListener dpHalf (some (.num (103/10))) .absent true 0 sW).1 =
      .suppressed ∧
    (∃ line, (changeListener dpHalf (some (.num (106/10))) .absent true 0 sW).1 =
      .acted (.submitted line)) ∧
    (∃ line, (startupInitial dpHalf (some (.num (103/10))) true 0 sW).1 =
      some (.submitted line)) ∧
    (∃ line, (guardStep dpHalf ONE_HOUR (.ok none) true sWcached).1 =
      .wrote (.submitted line)) := by
  have hmap : mapGet sW.writtenValues dpHalf.id = some 10 := rfl
  have habs : |(103/10 : ℚ) - 10| < 1/2 := by rw [abs_lt]; constructor <;> norm_num
  have hnabs : ¬(|(106/10 : ℚ) - 10| < 1/2) := by
    rw [abs_lt]
    rintro ⟨-, h2⟩
    norm_num at h2
  refine ⟨fun dp d val c l lc ok now t s hmd hc hl hd hts => ?_, ?_, ?_, ?_, ?_⟩
  · rw [changeListener_suppresses dp d val c l lc ok now t s hmd hc hl hd hts]
    exact ⟨rfl, rfl, rfl⟩
  · rw [changeListener_suppresses dpHalf (1/2) (some (.num (103/10)))
      (103/10) 10 .absent true 0 0 sW rfl rfl hmap habs rfl]
  · exact ⟨_, by
      rw [changeListener_passes dpHalf (1/2) (some (.num (106/10)))
        (106/10) 10 .absent true 0 0 sW rfl rfl hmap hnabs rfl]
      exact congrArg ListenerResult.acted
        ((writeToInflux_success dpHalf (some (.num (106/10))) "change" 0 0 _
          (106/10) rfl).1)⟩
  · exact ⟨_, by
      have h1 : (startupInitial dpHalf (some (.num (103/10))) true 0 sW).1 =
          some (writeToInflux dpHalf (some (.num (103/10))) "startup-initial"
            (msToNs 0) true 0
            { sW with lastValues :=
                (mapSet sW.lastValues dpHalf.id (some (.num (103/10)))) }).1 := rfl
      exact h1.trans (congrArg some
        ((writeToInflux_success dpHalf (some (.num (103/10))) "startup-initial"
          (msToNs 0) 0 _ (103/10) rfl).1))⟩
  · exact ⟨_, by
      have h1 : (guardStep dpHalf ONE_HOUR (.ok none) true sWcached).1 =
          .wrote (writeToInflux dpHalf (some (.num (103/10))) "hourly-guard"
            (msToNs ONE_HOUR) true ONE_HOUR
            { sWcached with lastGuardRun :=
                (mapSet sWcached.lastGuardRun dpHalf.id ONE_HOUR) }).1 := rfl
      exact h1.trans (congrArg GuardAction.wrote
        ((writeToInflux_success dpHalf (some (.num (103/10))) "hourly-guard"
          (msToNs ONE_HOUR) ONE_HOUR _ (103/10) rfl).1))⟩

/-- Witness for C2 at the spec's concrete numbers: the suppressed 10.3
change leaves the queue and the written-values map untouched. -/
theorem claim_C2_minDelta_suppression_witness :
    (changeListener dpHalf (some (.num (103/10))) .absent true 0 sW).2.queue =
      sW.queue :=
  (claim_C2_minDelta_suppression.1 dpHalf (1/2) (some (.num (103/10)))
    (103/10) 10 .absent true 0 0 sW rfl rfl rfl
    (by rw [abs_lt]; constructor <;> norm_num) rfl).2.1

/-- Below the one-hour threshold the guard does nothing for the datapoint:
no write and no state change. -/
theorem guardStep_below (dp : Datapoint) (now : Int)
    (src : Except Unit (Option JSVal)) (ok : Bool) (s : GState)
    (h : now - (mapGet s.lastGuardRun dp.id).getD 0 < ONE_HOUR) :
    guardStep dp now src ok s = (.skipped, s) := by
  simp [guardStep, h]

/-- At or above the threshold the guard records the evaluation time for the
datapoint no matter how the rest of the step goes (cached value, source
lookup, lookup error, missing value, or any submission outcome). -/
theorem guardStep_records_time (dp : Datapoint) (now : Int)
    (src : Except Unit (Option JSVal)) (ok : Bool) (s : GState)
    (h : ¬(now - (mapGet s.lastGuardRun dp.id).getD 0 < ONE_HOUR)) :
    mapGet (guardStep dp now src ok s).2.lastGuardRun dp.id = some now := by
  simp only [guardStep]
  rw [if_neg h]
  split
  · simp [writeToInflux_lastGuardRun]
  · split
    · simp
    · split
      · simp [writeToInflux_lastGuardRun]
      · simp

/-- At or above the threshold, with a cached last observed value, the guard
writes it through `writeToInflux` with trigger `"hourly-guard"`. -/
theorem guardStep_writes_cached (dp : Datapoint) (now : Int)
    (src : Except Unit (Option JSVal)) (ok : Bool) (s : GState) (v : JSVal)
    (h : ¬(now - (mapGet s.lastGuardRun dp.id).getD 0 < ONE_HOUR))
    (hv : (mapGet s.lastValues dp.id).getD none = some v) :
    guardStep dp now src ok s =
      (.wrote (writeToInflux dp (some v) "hourly-guard" (msToNs now) ok now
          { s with lastGuardRun := (mapSet s.lastGuardRun dp.id now) }).1,
        (writeToInflux dp (some v) "hourly-guard" (msToNs now) ok now
          { s with lastGuardRun := (mapSet s.lastGuardRun dp.id now) }).2) := by
  simp only [guardStep]
  rw [if_neg h]
  simp [hv]

/-- At or above the threshold with no cached value, a successful source
lookup that returns a defined value leads to a heartbeat write of that
value (after caching it in `lastValues`). -/
theorem guardStep_writes_queried (dp : Datapoint) (now : Int)
    (src : Except Unit (Option JSVal)) (ok : Bool) (s : GState) (v : JSVal)
    (h : ¬(now - (mapGet s.lastGuardRun dp.id).getD 0 < ONE_HOUR))
    (hv : (mapGet s.lastValues dp.id).getD none = none)
    (hsrc : src = .ok (some v)) :
    guardStep dp now src ok s =
      (.wrote (writeToInflux dp (some v) "hourly-guard" (msToNs now) ok now
          { s with lastGuardRun := (mapSet s.lastGuardRun dp.id now),
                   lastValues := (mapSet s.lastValues dp.id (some v)) }).1,
        (writeToInflux dp (some v) "hourly-guard" (msToNs now) ok now
          { s with lastGuardRun := (mapSet s.lastGuardRun dp.id now),
                   lastValues := (mapSet s.lastValues dp.id (some v)) }).2) := by
  subst hsrc
  simp only [guardStep]
  rw [if_neg h]
  simp [hv]

/-- The hourly-guard step never consults `minDelta`: changing it changes
nothing about the step. -/
theorem guardStep_minDelta_irrelevant (dp : Datapoint) (md : Option ℚ)
    (now : Int) (src : Except Unit (Option JSVal)) (ok : Bool) (s : GState) :
    guardStep { dp with minDelta := md } now src ok s =
      guardStep dp now src ok s := by
  cases dp
  rfl

/-- C6: on a heartbeat poll tick, a datapoint whose elapsed time since its
last guard evaluation is below one hour is skipped with no state change;
one at or above the threshold gets its evaluation time recorded regardless
of the write outcome, and a write of the last known observed value — the
cached one, or the one queried from the event source when none is cached —
is performed with the `"hourly-guard"` trigger; the step is independent of
`minDelta`, so the minimum-change filter is bypassed. -/
theorem claim_C6_hourly_guard (dp : Datapoint) (now : Int)
    (src : Except Unit (Option JSVal)) (ok : Bool) (s : GState) :
    (now - (mapGet s.lastGuardRun dp.id).getD 0 < ONE_HOUR →
      guardStep dp now src ok s = (.skipped, s)) ∧
    (¬(now - (mapGet s.lastGuardRun dp.id).getD 0 < ONE_HOUR) →
      mapGet (guardStep dp now src ok s).2.lastGuardRun dp.id = some now ∧
      (∀ v, (mapGet s.lastValues dp.id).getD none = some v →
        (guardStep dp now src ok s).1 =
          .wrote (writeToInflux dp (some v) "hourly-guard" (msToNs now) ok now
            { s with lastGuardRun := (mapSet s.lastGuardRun dp.id now) }).1) ∧
      (∀ v, (mapGet s.lastValues dp.id).getD none = none → src = .ok (some v) →
        (guardStep dp now src ok s).1 =
          .wrote (writeToInflux dp (some v) "hourly-guard" (msToNs now) ok now
            { s with lastGuardRun := (mapSet s.lastGuardRun dp.id now),
                     lastValues := (mapSet s.lastValues dp.id (some v)) }).1)) ∧
    (∀ md, guardStep { dp with minDelta := md } now src ok s =
      guardStep dp now src ok s) := by
  refine ⟨fun h => guardStep_below dp now src ok s h,
    fun h => ⟨guardStep_records_time dp now src ok s h,
      fun v hv => ?_, fun v hv hsrc => ?_⟩,
    fun md => guardStep_minDelta_irrelevant dp md now src ok s⟩
  · rw [guardStep_writes_cached dp now src ok s v h hv]
  · rw [guardStep_writes_queried dp now src ok s v h hv hsrc]

/-- Witness for C6: with no recorded guard run and the clock at the
threshold, the skip case fires at time 0 and the record-time case fires at
time `ONE_HOUR`. -/
theorem claim_C6_hourly_guard_witness :
    guardStep dpHalf 0 (.ok none) true sW = (.skipped, sW) ∧
    mapGet (guardStep dpHalf ONE_HOUR (.ok none) true
      sWcached).2.lastGuardRun dpHalf.id = some ONE_HOUR :=
  ⟨(claim_C6_hourly_guard dpHalf 0 (.ok none) true sW).1 (by decide),
    ((claim_C6_hourly_guard dpHalf ONE_HOUR (.ok none) true
      sWcached).2.1 (by decide)).1⟩

/-- C10: on the first guard tick after startup the datapoint has no
recorded guard run, so its last evaluation time defaults to 0 and the
elapsed time is the full epoch time `now`; whenever `now` is at least one
hour past the epoch — always, for a real clock — the datapoint is treated
as overdue: the evaluation time is recorded and a heartbeat write of the
available value is attempted. -/
theorem claim_C10_first_tick_guard (dp : Datapoint) (now : Int)
    (src : Except Unit (Option JSVal)) (ok : Bool) (s : GState)
    (hnone : mapGet s.lastGuardRun dp.id = none) (hnow : ONE_HOUR ≤ now) :
    mapGet (guardStep dp now src ok s).2.lastGuardRun dp.id = some now ∧
    (∀ v, (mapGet s.lastValues dp.id).getD none = some v →
      (guardStep dp now src ok s).1 =
        .wrote (writeToInflux dp (some v) "hourly-guard" (msToNs now) ok now
          { s with lastGuardRun := (mapSet s.lastGuardRun dp.id now) }).1) := by
  have h : ¬(now - (mapGet s.lastGuardRun dp.id).getD 0 < ONE_HOUR) := by
    rw [hnone]
    simp only [Option.getD_none, sub_zero]
    exact not_lt.mpr hnow
  exact ⟨guardStep_records_time dp now src ok s h,
    fun v hv => by rw [guardStep_writes_cached dp now src ok s v h hv]⟩

/-- Witness for C10: first tick, cached value present — the heartbeat write
is attempted with the cached value. -/
theorem claim_C10_first_tick_guard_witness :
    (guardStep dpHalf ONE_HOUR (.ok none) true sWcached).1 =
      .wrote (writeToInflux dpHalf (some (.num (103/10))) "hourly-guard"
        (msToNs ONE_HOUR) true ONE_HOUR
        { sWcached with lastGuardRun :=
            (mapSet sWcached.lastGuardRun dpHalf.id ONE_HOUR) }).1 :=
  (claim_C10_first_tick_guard dpHalf ONE_HOUR (.ok none) true sWcached rfl
    (by decide)).2 (.num (103/10)) rfl

/-- C7 fails as stated on unparseable date strings: for a source-reported
time that is a string `Date.parse` cannot parse, the listener does NOT fall
back to the current time — `msToNs(Date.parse(lc))` throws, because
`BigInt(NaN)` raises a `RangeError`.  At the concrete current time
1700000000000 ms the derivation is an error, not the claimed fallback. -/
theorem claim_C7_counterexample :
    tsNsOfLc 1700000000000 (JSTime.str none) = .error () ∧
    tsNsOfLc 1700000000000 (JSTime.str none) ≠
      Except.ok (msToNs 1700000000000) := by
  constructor
  · rfl
  · simp [tsNsOfLc]

/-- C7 (amended): the precedence is — a finite numeric millisecond `lc` is
converted to nanoseconds; otherwise a string `lc` is parsed, a parseable
string is converted, and an unparseable string raises an error (the
notification produces no record at all, and the listener rethrows into the
fatal handler); only an absent `lc`, or a non-finite numeric one, falls
back to the current time. -/
theorem claim_C7_timestamp_precedence (now ms : Int) :
    tsNsOfLc now (.num ms) = .ok (msToNs ms) ∧
    tsNsOfLc now (.str (some ms)) = .ok (msToNs ms) ∧
    tsNsOfLc now (.str none) = .error () ∧
    tsNsOfLc now .absent = .ok (msToNs now) ∧
    tsNsOfLc now .nonFiniteNum = .ok (msToNs now) ∧
    (∀ (dp : Datapoint) (val : Option JSVal) (ok : Bool) (s : GState),
      changeListener dp val (.str none) ok now s = (.errorThrown, s)) := by
  refine ⟨rfl, rfl, rfl, rfl, rfl, fun dp val ok s => ?_⟩
  simp [changeListener, tsNsOfLc]

/-- C8: loading the durable queue file at startup never aborts the process:
every possible file state yields an in-memory queue — a missing file (which
is created holding `"[]"`), an empty file, an I/O error, unparseable
content, and parsed non-array content all yield the empty queue, and only a
fully parsed array is recovered, exactly as parsed (no partial recovery of
unparseable fragments). -/
theorem claim_C8_load_never_aborts :
    initQueueFile .missing = [] ∧
    initQueueFile .emptyRaw = [] ∧
    initQueueFile .ioError = [] ∧
    initQueueFile .parseError = [] ∧
    initQueueFile .parsedNonArray = [] ∧
    (∀ fs, initQueueFile fs = [] ∨
      ∃ q, fs = .parsedArray q ∧ initQueueFile fs = q) := by
  refine ⟨rfl, rfl, rfl, rfl, rfl, fun fs => ?_⟩
  cases fs
  case missing => exact Or.inl rfl
  case emptyRaw => exact Or.inl rfl
  case ioError => exact Or.inl rfl
  case parseError => exact Or.inl rfl
  case parsedArray q => exact Or.inr ⟨q, rfl, rfl⟩
  case parsedNonArray => exact Or.inl rfl

/-- The 501-record queue is not empty. -/
theorem q501_ne_nil : q501 ≠ [] := by
  intro h
  have hlen := congrArg List.length h
  simp only [q501, List.length_replicate, List.length_nil] at hlen
  exact absurd hlen (by decide)

/-- A flush invocation on a non-empty queue passes its synchronous prefix
and takes a batch. -/
theorem flushBegin_isSome (s : GState) (h : s.queue ≠ []) :
    (flushBegin s).1.isSome = true := by
  simp [flushBegin, h]

/-- C9 fails as stated for `src/influxdb3Client.js`: its `flushQueue` has no
in-progress flag, so with 501 records queued a first invocation passes its
synchronous prefix and suspends at `await client.write` holding a batch,
and a second invocation (e.g., the shutdown drain triggered by a signal
during that suspension) also begins — it takes a further batch instead of
returning. -/
theorem claim_C9_counterexample :
    (flushBegin s501).1.isSome = true ∧
    (flushBegin (flushBegin s501).2).1.isSome = true := by
  have hq : (s501 : GState).queue ≠ [] := q501_ne_nil
  have hmid : (flushBegin s501).2.queue = q501.drop MAX_BATCH := by
    simp [flushBegin, s501, q501_ne_nil]
  constructor
  · exact flushBegin_isSome s501 hq
  · refine flushBegin_isSome _ ?_
    rw [hmid]
    exact q501_drop_ne_nil

/-- C9 (amended): the guarded flush routine of `src/influxdb3Connector.js`
does enforce mutual exclusion with its `isFlushing` flag — any invocation
while a flush is in progress returns immediately without touching the
queue, and an invocation that begins (takes a batch) leaves the flag set so
that no second invocation can begin until it completes.  The `flushQueue`
of `src/influxdb3Client.js` has no such guard (see the counterexample). -/
theorem claim_C9_connector_flush_guarded (s : ConnState) (batch : List QRec)
    (s1 : ConnState) :
    (s.isFlushing = true → connFlushBegin s = (none, s)) ∧
    (connFlushBegin s = (some batch, s1) →
      s1.isFlushing = true ∧ connFlushBegin s1 = (none, s1)) := by
  constructor
  · intro h
    simp [connFlushBegin, h]
  · intro h
    by_cases hf : s.isFlushing
    · simp [connFlushBegin, hf] at h
    · by_cases hq : s.queue = []
      · simp [connFlushBegin, hf, hq] at h
      · simp only [connFlushBegin, hf, hq] at h
        have hs1 : s1 = ⟨s.queue.drop MAX_BATCH, true⟩ := by
          have := congrArg Prod.snd h
          simpa using this.symm
        subst hs1
        exact ⟨rfl, by simp [connFlushBegin]⟩

/-- Witness for amended C9: a concrete invocation against an in-progress
state returns immediately, and after a one-record flush begins, the flag is
set and a second begin is refused. -/
theorem claim_C9_connector_flush_guarded_witness :
    connFlushBegin ⟨[r0], true⟩ = (none, ⟨[r0], true⟩) ∧
    connFlushBegin (⟨[], true⟩ : ConnState) = (none, ⟨[], true⟩) :=
  ⟨(claim_C9_connector_flush_guarded ⟨[r0], true⟩ [r0] ⟨[], true⟩).1 rfl,
    ((claim_C9_connector_flush_guarded ⟨[r0], false⟩ [r0] ⟨[], true⟩).2
      (by decide)).2⟩
